import Mathlib

/-!
Shallow embedding of the consumer session module of the blpapi Python wrapper
(src/blpapi/session.py).  Pure Python control flow is translated directly;
calls into the C extension layer (the internals module, which is not part of
this repository snapshot) are modelled from the specification, each such
definition carrying a doc comment that says so.  Exceptions are modelled with
the Except monad, and process wide side effects (the atexit registry, created
session handles) with an explicit World record.
-/

namespace Blpapi

/-- An opaque correlation token (internals.CorrelationId); callers supply one
or the session mints a fresh one. -/
structure CorrelationId where
  value : Nat
deriving DecidableEq, Repr

/-- An opaque identity handle used for authorization. -/
structure Identity where
  handle : Nat
deriving DecidableEq, Repr

/-- Exceptions that the embedded code can raise.  invalidArgument and
invalidState mirror the blpapi exception classes of the same names;
valueError mirrors the built in Python ValueError raised by a failed Enum
conversion; blpapiError covers every other nonzero error code surfaced by
raiseOnError; handlerError stands for an arbitrary exception raised by a
user supplied event handler. -/
inductive PyError where
  | invalidArgument (msg : String) (code : Int)
  | invalidState (code : Int)
  | valueError (msg : String)
  | blpapiError (code : Int)
  | handlerError (tag : Nat)
deriving DecidableEq, Repr

/-- Modelled from the spec: the error code of the InvalidState category used
by the C layer (the exception and internals modules are not under src/); the
only property the embedding relies on is that it is a fixed nonzero code. -/
def BLPAPI_ERROR_INVALID_STATE : Int := 6

/-- Modelled from the spec: the mapping, performed by the exception module
(not under src/), from a nonzero error code to the exception class raised;
the InvalidState code maps to InvalidStateException and every other nonzero
code to some other blpapi exception. -/
def errorFromCode (code : Int) : PyError :=
  if code = BLPAPI_ERROR_INVALID_STATE then PyError.invalidState code
  else PyError.blpapiError code

/-- Modelled from the spec: ExceptionUtil.raiseOnError from the exception
module (not under src/): a zero code is success, a nonzero code raises the
exception that corresponds to it. -/
def raiseOnError (code : Int) : Except PyError Unit :=
  if code = 0 then Except.ok () else Except.error (errorFromCode code)

/-- The two members of the SubscriptionPreprocessMode enum. -/
inductive SubscriptionPreprocessMode where
  | FAIL_ON_FIRST_ERROR
  | RETURN_INDIVIDUAL_ERRORS
deriving DecidableEq, Repr

/-- The integer value of each SubscriptionPreprocessMode member, as declared
in the enum (FAIL_ON_FIRST_ERROR = 1, RETURN_INDIVIDUAL_ERRORS = 2). -/
def SubscriptionPreprocessMode.value : SubscriptionPreprocessMode → Int
  | .FAIL_ON_FIRST_ERROR => 1
  | .RETURN_INDIVIDUAL_ERRORS => 2

/-- A Python value passed in the mode slot of subscribe or resubscribe: an
enum member, an arbitrary integer, or any other object (identified here by a
string tag). -/
inductive ModeArg where
  | member (m : SubscriptionPreprocessMode)
  | intValue (v : Int)
  | other (tag : String)
deriving DecidableEq, Repr

/-- The Python call SubscriptionPreprocessMode(mode): returns the member when
the argument is already a member or is the integer value of a member, and
raises ValueError otherwise (standard Enum call semantics). -/
def SubscriptionPreprocessMode.ofArg : ModeArg → Except PyError SubscriptionPreprocessMode
  | ModeArg.member m => Except.ok m
  | ModeArg.intValue v =>
      if v = 1 then Except.ok SubscriptionPreprocessMode.FAIL_ON_FIRST_ERROR
      else if v = 2 then Except.ok SubscriptionPreprocessMode.RETURN_INDIVIDUAL_ERRORS
      else Except.error (PyError.valueError "is not a valid SubscriptionPreprocessMode")
  | ModeArg.other _ =>
      Except.error (PyError.valueError "is not a valid SubscriptionPreprocessMode")

/-- The two members of SubscriptionPreprocessError.ErrorCode. -/
inductive ErrorCode where
  | SUBSCRIPTIONPREPROCESS_INVALID_SUBSCRIPTION_STRING
  | SUBSCRIPTIONPREPROCESS_CORRELATIONID_ERROR
deriving DecidableEq, Repr

/-- The outcome of preprocessing a single subscription list entry, as decided
by the C layer: valid, or invalid with an error code and description. -/
inductive EntryStatus where
  | valid
  | invalid (code : ErrorCode) (description : String)
deriving DecidableEq, Repr

/-- One entry of a SubscriptionList: its correlation id, its subscription
string, and the validity verdict the C layer preprocessing would give it. -/
structure SubscriptionEntry where
  correlationId : CorrelationId
  subscriptionString : String
  status : EntryStatus
deriving DecidableEq, Repr

/-- Whether an entry is invalid (its status is not valid). -/
def SubscriptionEntry.isInvalid (e : SubscriptionEntry) : Bool :=
  match e.status with
  | EntryStatus.valid => false
  | EntryStatus.invalid _ _ => true

/-- The SubscriptionPreprocessError record built by the error appender. -/
structure SubscriptionPreprocessError where
  correlationId : CorrelationId
  subscriptionString : String
  errorCode : ErrorCode
  description : String
deriving DecidableEq, Repr

/-- The closure produced by Session.createErrorAppender: appends one
SubscriptionPreprocessError, built from the callback arguments, to the
accumulated error list.  (The source converts the raw integer error code via
the ErrorCode enum; here the code already arrives as the enum value, since
the modelled C layer only produces member codes.) -/
def createErrorAppender_append
    (errorList : List SubscriptionPreprocessError)
    (correlationId : CorrelationId) (subscriptionString : String)
    (errorCode : ErrorCode) (description : String) :
    List SubscriptionPreprocessError :=
  errorList ++ [{ correlationId := correlationId,
                  subscriptionString := subscriptionString,
                  errorCode := errorCode,
                  description := description }]

/-- Modelled from the spec: FAIL_ON_FIRST_ERROR preprocessing performed by
internals.blpapi_Session_subscribe (C layer, not under src/): on the first
invalid entry the whole batch is aborted with a nonzero error code and no
subscription from the batch is registered; otherwise the transport status
code of the submission is returned. -/
def blpapi_Session_subscribe (entries : List SubscriptionEntry)
    (transportRc : Int) : Int :=
  if entries.any SubscriptionEntry.isInvalid then 1 else transportRc

/-- Modelled from the spec: internals.blpapi_Session_subscribeEx_helper (C
layer, not under src/): preprocesses the entries, invoking the supplied error
appender once per invalid entry in submission order, lets the valid entries
proceed, and returns the transport status code of the submission. -/
def blpapi_Session_subscribeEx_helper (entries : List SubscriptionEntry)
    (transportRc : Int)
    (append : List SubscriptionPreprocessError → CorrelationId → String →
      ErrorCode → String → List SubscriptionPreprocessError) :
    Int × List SubscriptionPreprocessError :=
  (transportRc,
   entries.foldl (fun acc e =>
      match e.status with
      | EntryStatus.valid => acc
      | EntryStatus.invalid code desc =>
          append acc e.correlationId e.subscriptionString code desc) [])

/-- Modelled from the spec: internals.blpapi_Session_resubscribe (C layer,
not under src/): same FAIL_ON_FIRST_ERROR preprocessing as subscribe, acting
on current subscriptions. -/
def blpapi_Session_resubscribe (entries : List SubscriptionEntry)
    (transportRc : Int) : Int :=
  if entries.any SubscriptionEntry.isInvalid then 1 else transportRc

/-- Modelled from the spec: internals.blpapi_Session_resubscribeWithId (C
layer, not under src/): as blpapi_Session_resubscribe, additionally tagging
the generated status events with the given resubscription id (an int, which
does not affect the preprocessing verdict). -/
def blpapi_Session_resubscribeWithId (entries : List SubscriptionEntry)
    (resubscriptionId : Int) (transportRc : Int) : Int :=
  if entries.any SubscriptionEntry.isInvalid then 1 else transportRc

/-- Modelled from the spec: internals.blpapi_Session_resubscribeEx_helper (C
layer, not under src/): same error collecting preprocessing as the subscribe
Ex helper. -/
def blpapi_Session_resubscribeEx_helper (entries : List SubscriptionEntry)
    (transportRc : Int)
    (append : List SubscriptionPreprocessError → CorrelationId → String →
      ErrorCode → String → List SubscriptionPreprocessError) :
    Int × List SubscriptionPreprocessError :=
  blpapi_Session_subscribeEx_helper entries transportRc append

/-- Modelled from the spec: internals.blpapi_Session_resubscribeWithIdEx_helper
(C layer, not under src/): as the resubscribe Ex helper, additionally tagging
status events with the given resubscription id. -/
def blpapi_Session_resubscribeWithIdEx_helper (entries : List SubscriptionEntry)
    (resubscriptionId : Int) (transportRc : Int)
    (append : List SubscriptionPreprocessError → CorrelationId → String →
      ErrorCode → String → List SubscriptionPreprocessError) :
    Int × List SubscriptionPreprocessError :=
  blpapi_Session_subscribeEx_helper entries transportRc append

/-- A process exit hook held by the atexit registry; the only hook this
module registers is the bound stop method of a session, identified by the
handle of that session (Python bound methods of one instance and function
compare equal, which is what atexit.unregister uses). -/
inductive AtexitHook where
  | sessionStop (handle : Nat)
deriving DecidableEq, Repr

/-- Process wide state visible to the embedding: the atexit hook registry
(in registration order) and the session handles the C layer has created. -/
structure World where
  atexitHooks : List AtexitHook
  createdHandles : List Nat
deriving DecidableEq, Repr

/-- atexit.register: appends the hook to the registry. -/
def atexit_register (w : World) (h : AtexitHook) : World :=
  { w with atexitHooks := w.atexitHooks ++ [h] }

/-- atexit.unregister: removes every occurrence of the hook. -/
def atexit_unregister (w : World) (h : AtexitHook) : World :=
  { w with atexitHooks := w.atexitHooks.filter (fun x => x ≠ h) }

/-- The state of a constructed Session that the embedded operations consult:
its C layer handle and whether it was constructed with an event handler
(asynchronous mode). -/
structure SessionState where
  handle : Nat
  hasHandler : Bool
deriving DecidableEq, Repr

/-- Session.__init__: raises InvalidArgumentException when an event
dispatcher is supplied without an event handler; otherwise creates the C
layer session handle and registers the stop method as a process exit hook.
Returns the world after the call and the constructed state or the raised
exception.  The handler and dispatcher arguments are identified by opaque
tags; freshHandle is the handle internals.Session_createHelper would mint. -/
def Session.init (eventHandler : Option Nat) (eventDispatcher : Option Nat)
    (w : World) (freshHandle : Nat) : World × Except PyError SessionState :=
  if eventHandler = none ∧ eventDispatcher ≠ none then
    (w, Except.error (PyError.invalidArgument
          "eventDispatcher is specified but eventHandler is None" 0))
  else
    let w1 : World := { w with createdHandles := w.createdHandles ++ [freshHandle] }
    let w2 : World := atexit_register w1 (AtexitHook.sessionStop freshHandle)
    (w2, Except.ok { handle := freshHandle, hasHandler := eventHandler.isSome })

/-- Session.stop: unregisters the process exit hook for this session, then
stops the C layer session; returns whether the stop code was zero, together
with the world after the call.  stopRc is the code returned by
internals.blpapi_Session_stop. -/
def Session.stop (s : SessionState) (w : World) (stopRc : Int) : Bool × World :=
  (stopRc = 0, atexit_unregister w (AtexitHook.sessionStop s.handle))

/-- An event handle produced by the C layer. -/
abbrev EventHandle := Nat

/-- The Event object built by the wrapper: the C layer handle together with
the handles of the sessions the event is associated with. -/
structure Event where
  handle : EventHandle
  sessions : List Nat
deriving DecidableEq, Repr

/-- Modelled from the spec: internals.blpapi_Session_nextEvent (C layer, not
under src/) fails with the InvalidState error code when invoked on a session
constructed with an event handler; otherwise it returns the transport result
(a status code and an event handle). -/
def blpapi_Session_nextEvent (s : SessionState) (timeout : Int)
    (transportRc : Int) (ev : EventHandle) : Int × EventHandle :=
  if s.hasHandler then (BLPAPI_ERROR_INVALID_STATE, ev) else (transportRc, ev)

/-- Modelled from the spec: internals.blpapi_Session_tryNextEvent (C layer,
not under src/), with the same InvalidState behaviour on a handler driven
session as blpapi_Session_nextEvent. -/
def blpapi_Session_tryNextEvent (s : SessionState)
    (transportRc : Int) (ev : EventHandle) : Int × EventHandle :=
  if s.hasHandler then (BLPAPI_ERROR_INVALID_STATE, ev) else (transportRc, ev)

/-- Session.nextEvent: calls the C layer, raises on a nonzero code, and wraps
the returned handle in an Event associated with this session. -/
def Session.nextEvent (s : SessionState) (timeout : Int)
    (transportRc : Int) (ev : EventHandle) : Except PyError Event := do
  let (retCode, event) := blpapi_Session_nextEvent s timeout transportRc ev
  raiseOnError retCode
  return { handle := event, sessions := [s.handle] }

/-- Session.tryNextEvent: calls the C layer and returns none on ANY nonzero
code (the source tests the code for truthiness and returns None; it never
raises here); otherwise wraps the handle in an Event. -/
def Session.tryNextEvent (s : SessionState)
    (transportRc : Int) (ev : EventHandle) : Except PyError (Option Event) :=
  let (retCode, event) := blpapi_Session_tryNextEvent s transportRc ev
  if retCode ≠ 0 then Except.ok none
  else Except.ok (some { handle := event, sessions := [s.handle] })

/-- Session.subscribe: converts the mode argument through the
SubscriptionPreprocessMode enum (which raises ValueError for an unsupported
value), then in FAIL_ON_FIRST_ERROR mode submits the list and raises on a
nonzero code, returning none; in RETURN_INDIVIDUAL_ERRORS mode submits
through the Ex helper with an error appender, raises on a nonzero code, and
returns the collected error list.  The trailing unsupported mode branch of
the source is kept verbatim even though a successful enum conversion makes
it unreachable.  transportRc is the status code the C layer submission would
return. -/
def Session.subscribe (s : SessionState) (entries : List SubscriptionEntry)
    (identity : Option Identity) (requestLabel : String) (mode : ModeArg)
    (transportRc : Int) :
    Except PyError (Option (List SubscriptionPreprocessError)) := do
  let subMode ← SubscriptionPreprocessMode.ofArg mode
  if subMode = SubscriptionPreprocessMode.FAIL_ON_FIRST_ERROR then
    raiseOnError (blpapi_Session_subscribe entries transportRc)
    return none
  else if subMode = SubscriptionPreprocessMode.RETURN_INDIVIDUAL_ERRORS then
    let (rc, errorList) :=
      blpapi_Session_subscribeEx_helper entries transportRc
        createErrorAppender_append
    raiseOnError rc
    return some errorList
  else
    throw (PyError.invalidArgument "Unsupported SubscriptionPreprocessMode" 0)

/-- Session.resubscribe: same two mode structure as subscribe, choosing the
WithId variants of the C layer calls when a resubscription id is supplied. -/
def Session.resubscribe (s : SessionState) (entries : List SubscriptionEntry)
    (requestLabel : String) (resubscriptionId : Option Int) (mode : ModeArg)
    (transportRc : Int) :
    Except PyError (Option (List SubscriptionPreprocessError)) := do
  let subMode ← SubscriptionPreprocessMode.ofArg mode
  if subMode = SubscriptionPreprocessMode.FAIL_ON_FIRST_ERROR then
    match resubscriptionId with
    | none =>
        raiseOnError (blpapi_Session_resubscribe entries transportRc)
    | some rid =>
        raiseOnError (blpapi_Session_resubscribeWithId entries rid transportRc)
    return none
  else if subMode = SubscriptionPreprocessMode.RETURN_INDIVIDUAL_ERRORS then
    let (rc, errorList) :=
      match resubscriptionId with
      | none =>
          blpapi_Session_resubscribeEx_helper entries transportRc
            createErrorAppender_append
      | some rid =>
          blpapi_Session_resubscribeWithIdEx_helper entries rid transportRc
            createErrorAppender_append
    raiseOnError rc
    return some errorList
  else
    throw (PyError.invalidArgument "Unsupported SubscriptionPreprocessMode" 0)

/-- The result of one call of the static dispatcher Session.__dispatchEvent:
it either runs to completion (recording whether the user handler was
invoked), or terminates the whole process after printing the traceback
(recording that the traceback went to stderr and the exit status), or lets
an exception propagate to its caller.  The embedded dispatcher never
produces the propagated form, which is exactly what the claims about it
assert. -/
inductive DispatchResult where
  | completed (handlerInvoked : Bool)
  | terminated (stderrTraceback : Bool) (exitCode : Nat)
  | propagated (e : PyError)
deriving DecidableEq, Repr

/-- The try block of Session.__dispatchEvent: dereference the weak session
reference; when the session is still alive, build the Event and invoke the
user handler (handlerResult is what that invocation does: return or raise);
when the reference yields none, do nothing.  Returns whether the handler was
invoked, or the exception the block raised. -/
def dispatchEvent_tryBody (sessionRef : Option SessionState)
    (handlerResult : Except PyError Unit) : Except PyError Bool :=
  match sessionRef with
  | some _session => do
      handlerResult
      return true
  | none => return false

/-- Session.__dispatchEvent: runs the try block; on any exception it prints
the traceback to stderr and calls os._exit(1), so no exception ever
propagates past it. -/
def Session.dispatchEvent (sessionRef : Option SessionState)
    (handlerResult : Except PyError Unit) : DispatchResult :=
  match dispatchEvent_tryBody sessionRef handlerResult with
  | Except.ok invoked => DispatchResult.completed invoked
  | Except.error _ => DispatchResult.terminated true 1

/-- An EventQueue, reduced to the observable the claims need: the session
handles registered with it through EventQueue._registerSession. -/
structure EventQueue where
  registeredSessions : List Nat
deriving DecidableEq, Repr

/-- EventQueue._registerSession: records the session with the queue. -/
def EventQueue.registerSession (q : EventQueue) (h : Nat) : EventQueue :=
  { registeredSessions := q.registeredSessions ++ [h] }

/-- The outcome of Session.sendRequest: the correlation id the wrapper passed
to the C layer submission, the event queue object after the call, and the
returned correlation id or the raised exception. -/
structure SendRequestOutcome where
  cidUsed : CorrelationId
  queueAfter : Option EventQueue
  result : Except PyError CorrelationId
deriving Repr

/-- Session.sendRequest: when no correlation id is supplied a fresh one is
created (freshCid is the id CorrelationId() would mint); the request is
submitted with it, a nonzero submission code raises, and only after a
successful submission is the optional event queue registered with the
session; the id actually used is returned.  res is the code returned by
internals.blpapi_Session_sendRequest. -/
def Session.sendRequest (s : SessionState) (request : Nat)
    (identity : Option Identity) (correlationId : Option CorrelationId)
    (eventQueue : Option EventQueue) (requestLabel : String)
    (freshCid : CorrelationId) (res : Int) : SendRequestOutcome :=
  let cid := match correlationId with
    | none => freshCid
    | some c => c
  match raiseOnError res with
  | Except.error e =>
      { cidUsed := cid, queueAfter := eventQueue, result := Except.error e }
  | Except.ok _ =>
      { cidUsed := cid,
        queueAfter := eventQueue.map (fun q => q.registerSession s.handle),
        result := Except.ok cid }

/-- A RequestTemplate wrapping a C layer template handle. -/
structure RequestTemplate where
  handle : Nat
deriving DecidableEq, Repr

/-- Session.sendRequestTemplate: when no correlation id is supplied a fresh
one is created; the templated request is submitted with it and a nonzero
code raises; the id actually used is returned.  The first component is the
id passed to the C layer submission. -/
def Session.sendRequestTemplate (s : SessionState)
    (requestTemplate : RequestTemplate) (correlationId : Option CorrelationId)
    (freshCid : CorrelationId) (res : Int) :
    CorrelationId × Except PyError CorrelationId :=
  let cid := match correlationId with
    | none => freshCid
    | some c => c
  match raiseOnError res with
  | Except.error e => (cid, Except.error e)
  | Except.ok _ => (cid, Except.ok cid)

/-- A Python value passed in one of the two trailing slots of
createSnapshotRequestTemplate: a CorrelationId, an Identity, or None.  The
isinstance check of the source distinguishes exactly the CorrelationId
shape. -/
inductive SnapshotArg where
  | cid (c : CorrelationId)
  | ident (i : Identity)
  | noneVal
deriving DecidableEq, Repr

/-- The Python check isinstance(x, CorrelationId) on a snapshot argument. -/
def SnapshotArg.isCorrelationId : SnapshotArg → Bool
  | SnapshotArg.cid _ => true
  | _ => false

/-- The arguments the wrapper passes down to
internals.blpapi_Session_createSnapshotRequestTemplate (in the order of that
call: subscription string, identity argument, correlation id argument). -/
structure SnapshotCall where
  subscriptionString : String
  identityArg : SnapshotArg
  cidArg : SnapshotArg
deriving DecidableEq, Repr

/-- Session.createSnapshotRequestTemplate: starts from the positional
interpretation (cidArg from the correlationId slot, identityArg from the
identity slot); when the value in the identity slot is a CorrelationId the
two interpretations are swapped (the backward compatibility shim for the old
argument order); then the C layer call is made with those arguments and a
nonzero code raises.  Returns the call actually made together with the
wrapped template or the raised exception.  rc and templateHandle are what
the C layer call would return. -/
def Session.createSnapshotRequestTemplate (s : SessionState)
    (subscriptionString : String) (correlationId : SnapshotArg)
    (identity : SnapshotArg) (rc : Int) (templateHandle : Nat) :
    SnapshotCall × Except PyError RequestTemplate :=
  let cidArg := correlationId
  let identityArg := identity
  let (cidArg, identityArg) :=
    if identity.isCorrelationId then (identity, correlationId)
    else (cidArg, identityArg)
  let call : SnapshotCall :=
    { subscriptionString := subscriptionString,
      identityArg := identityArg, cidArg := cidArg }
  match raiseOnError rc with
  | Except.error e => (call, Except.error e)
  | Except.ok _ => (call, Except.ok { handle := templateHandle })

/-- The list of SubscriptionPreprocessError records that the error appender
accumulates over a list of entries: one per invalid entry, in submission
order, carrying the fields of that entry. -/
def preprocessErrors (entries : List SubscriptionEntry) :
    List SubscriptionPreprocessError :=
  entries.filterMap (fun e =>
    match e.status with
    | EntryStatus.valid => none
    | EntryStatus.invalid code desc =>
        some { correlationId := e.correlationId,
               subscriptionString := e.subscriptionString,
               errorCode := code, description := desc })

theorem foldl_errorAppender (entries : List SubscriptionEntry)
    (acc : List SubscriptionPreprocessError) :
    entries.foldl (fun acc e =>
      match e.status with
      | EntryStatus.valid => acc
      | EntryStatus.invalid code desc =>
          createErrorAppender_append acc e.correlationId e.subscriptionString
            code desc) acc
      = acc ++ preprocessErrors entries := by
  induction entries generalizing acc with
  | nil => simp [preprocessErrors]
  | cons e t ih =>
      rw [List.foldl_cons]
      cases hs : e.status with
      | valid =>
          rw [ih]
          simp [preprocessErrors, hs]
      | invalid code desc =>
          rw [ih]
          simp [preprocessErrors, hs, createErrorAppender_append]

theorem subscribeEx_helper_errorList (entries : List SubscriptionEntry)
    (transportRc : Int) :
    blpapi_Session_subscribeEx_helper entries transportRc
        createErrorAppender_append
      = (transportRc, preprocessErrors entries) := by
  unfold blpapi_Session_subscribeEx_helper
  rw [foldl_errorAppender]
  simp

/-- C1: for every subscription list, identity and label, subscribe and
resubscribe in FAIL_ON_FIRST_ERROR mode raise when the list has an invalid
entry and otherwise either raise (transport failure) or return none, while
in RETURN_INDIVIDUAL_ERRORS mode any returned value is the list of
SubscriptionPreprocessError records, one per invalid entry in submission
order, and the value none is never returned. -/
theorem subscribe_resubscribe_mode_contract
    (s : SessionState) (entries : List SubscriptionEntry)
    (identity : Option Identity) (requestLabel : String)
    (resubscriptionId : Option Int) (transportRc : Int) :
    ((∃ e ∈ entries, e.isInvalid = true) →
        ∃ err, Session.subscribe s entries identity requestLabel
            (ModeArg.member SubscriptionPreprocessMode.FAIL_ON_FIRST_ERROR)
            transportRc = Except.error err)
    ∧ (Session.subscribe s entries identity requestLabel
          (ModeArg.member SubscriptionPreprocessMode.FAIL_ON_FIRST_ERROR)
          transportRc = Except.ok none
        ∨ ∃ err, Session.subscribe s entries identity requestLabel
            (ModeArg.member SubscriptionPreprocessMode.FAIL_ON_FIRST_ERROR)
            transportRc = Except.error err)
    ∧ (∀ r, Session.subscribe s entries identity requestLabel
          (ModeArg.member SubscriptionPreprocessMode.RETURN_INDIVIDUAL_ERRORS)
          transportRc = Except.ok r → r = some (preprocessErrors entries))
    ∧ Session.subscribe s entries identity requestLabel
        (ModeArg.member SubscriptionPreprocessMode.RETURN_INDIVIDUAL_ERRORS)
        transportRc ≠ Except.ok none
    ∧ ((∃ e ∈ entries, e.isInvalid = true) →
        ∃ err, Session.resubscribe s entries requestLabel resubscriptionId
            (ModeArg.member SubscriptionPreprocessMode.FAIL_ON_FIRST_ERROR)
            transportRc = Except.error err)
    ∧ (Session.resubscribe s entries requestLabel resubscriptionId
          (ModeArg.member SubscriptionPreprocessMode.FAIL_ON_FIRST_ERROR)
          transportRc = Except.ok none
        ∨ ∃ err, Session.resubscribe s entries requestLabel resubscriptionId
            (ModeArg.member SubscriptionPreprocessMode.FAIL_ON_FIRST_ERROR)
            transportRc = Except.error err)
    ∧ (∀ r, Session.resubscribe s entries requestLabel resubscriptionId
          (ModeArg.member SubscriptionPreprocessMode.RETURN_INDIVIDUAL_ERRORS)
          transportRc = Except.ok r → r = some (preprocessErrors entries))
    ∧ Session.resubscribe s entries requestLabel resubscriptionId
        (ModeArg.member SubscriptionPreprocessMode.RETURN_INDIVIDUAL_ERRORS)
        transportRc ≠ Except.ok none := by
  have hsub_fail :
      Session.subscribe s entries identity requestLabel
          (ModeArg.member SubscriptionPreprocessMode.FAIL_ON_FIRST_ERROR)
          transportRc
        = (raiseOnError (blpapi_Session_subscribe entries transportRc)).bind
            (fun _ => Except.ok none) := by
    simp [Session.subscribe, SubscriptionPreprocessMode.ofArg]
    cases raiseOnError (blpapi_Session_subscribe entries transportRc) <;> rfl
  have hsub_ret :
      Session.subscribe s entries identity requestLabel
          (ModeArg.member SubscriptionPreprocessMode.RETURN_INDIVIDUAL_ERRORS)
          transportRc
        = (raiseOnError transportRc).bind
            (fun _ => Except.ok (some (preprocessErrors entries))) := by
    simp [Session.subscribe, SubscriptionPreprocessMode.ofArg,
      subscribeEx_helper_errorList]
    cases raiseOnError transportRc <;> rfl
  have hres_fail :
      Session.resubscribe s entries requestLabel resubscriptionId
          (ModeArg.member SubscriptionPreprocessMode.FAIL_ON_FIRST_ERROR)
          transportRc
        = (raiseOnError (blpapi_Session_subscribe entries transportRc)).bind
            (fun _ => Except.ok none) := by
    cases resubscriptionId <;>
      simp [Session.resubscribe, SubscriptionPreprocessMode.ofArg,
        blpapi_Session_resubscribe, blpapi_Session_resubscribeWithId,
        blpapi_Session_subscribe] <;>
      cases raiseOnError (if entries.any SubscriptionEntry.isInvalid
        then 1 else transportRc) <;> rfl
  have hres_ret :
      Session.resubscribe s entries requestLabel resubscriptionId
          (ModeArg.member SubscriptionPreprocessMode.RETURN_INDIVIDUAL_ERRORS)
          transportRc
        = (raiseOnError transportRc).bind
            (fun _ => Except.ok (some (preprocessErrors entries))) := by
    cases resubscriptionId <;>
      simp [Session.resubscribe, SubscriptionPreprocessMode.ofArg,
        blpapi_Session_resubscribeEx_helper,
        blpapi_Session_resubscribeWithIdEx_helper,
        subscribeEx_helper_errorList] <;>
      cases raiseOnError transportRc <;> rfl
  have hinv : (∃ e ∈ entries, e.isInvalid = true) →
      raiseOnError (blpapi_Session_subscribe entries transportRc)
        = Except.error (errorFromCode 1) := by
    intro hex
    have hany : entries.any SubscriptionEntry.isInvalid = true :=
      List.any_eq_true.mpr hex
    simp [blpapi_Session_subscribe, hany, raiseOnError]
  refine ⟨?_, ?_, ?_, ?_, ?_, ?_, ?_, ?_⟩
  · intro hex
    rw [hsub_fail, hinv hex]
    exact ⟨errorFromCode 1, rfl⟩
  · rw [hsub_fail]
    cases raiseOnError (blpapi_Session_subscribe entries transportRc) with
    | ok u => exact Or.inl rfl
    | error err => exact Or.inr ⟨err, rfl⟩
  · intro r hr
    rw [hsub_ret] at hr
    cases hc : raiseOnError transportRc with
    | ok u => rw [hc] at hr; cases hr; rfl
    | error err => rw [hc] at hr; cases hr
  · rw [hsub_ret]
    cases raiseOnError transportRc <;> simp [Except.bind]
  · intro hex
    rw [hres_fail, hinv hex]
    exact ⟨errorFromCode 1, rfl⟩
  · rw [hres_fail]
    cases raiseOnError (blpapi_Session_subscribe entries transportRc) with
    | ok u => exact Or.inl rfl
    | error err => exact Or.inr ⟨err, rfl⟩
  · intro r hr
    rw [hres_ret] at hr
    cases hc : raiseOnError transportRc with
    | ok u => rw [hc] at hr; cases hr; rfl
    | error err => rw [hc] at hr; cases hr
  · rw [hres_ret]
    cases raiseOnError transportRc <;> simp [Except.bind]

/-- Witness for C1: a concrete one entry list whose entry is invalid makes
the FAIL_ON_FIRST_ERROR call raise, and the value RETURN_INDIVIDUAL_ERRORS
returns for it is exactly the one element preprocess error list. -/
theorem subscribe_resubscribe_mode_contract_witness :
    (∃ err, Session.subscribe ⟨0, false⟩
        [⟨⟨1⟩, "bad", EntryStatus.invalid
            ErrorCode.SUBSCRIPTIONPREPROCESS_INVALID_SUBSCRIPTION_STRING
            "oops"⟩] none ""
        (ModeArg.member SubscriptionPreprocessMode.FAIL_ON_FIRST_ERROR) 0
        = Except.error err)
    ∧ (some [⟨⟨1⟩, "bad",
          ErrorCode.SUBSCRIPTIONPREPROCESS_INVALID_SUBSCRIPTION_STRING,
          "oops"⟩] : Option (List SubscriptionPreprocessError))
        = some (preprocessErrors
            [⟨⟨1⟩, "bad", EntryStatus.invalid
                ErrorCode.SUBSCRIPTIONPREPROCESS_INVALID_SUBSCRIPTION_STRING
                "oops"⟩]) := by
  have h := subscribe_resubscribe_mode_contract ⟨0, false⟩
    [⟨⟨1⟩, "bad", EntryStatus.invalid
        ErrorCode.SUBSCRIPTIONPREPROCESS_INVALID_SUBSCRIPTION_STRING
        "oops"⟩] none "" none 0
  refine ⟨h.1 ⟨_, List.mem_singleton_self _, rfl⟩, ?_⟩
  exact (h.2.2.1 _ (by rfl)).symm ▸ rfl

/-- C2 (amended): on a session constructed with an event handler, nextEvent
raises the InvalidState error, while tryNextEvent swallows the nonzero code
and returns none instead of raising. -/
theorem async_session_next_event_behaviour
    (s : SessionState) (hs : s.hasHandler = true)
    (timeout transportRc : Int) (ev : EventHandle) :
    Session.nextEvent s timeout transportRc ev
        = Except.error (PyError.invalidState BLPAPI_ERROR_INVALID_STATE)
    ∧ Session.tryNextEvent s transportRc ev = Except.ok none := by
  constructor
  · simp [Session.nextEvent, blpapi_Session_nextEvent, hs, raiseOnError,
      errorFromCode, BLPAPI_ERROR_INVALID_STATE]
  · simp [Session.tryNextEvent, blpapi_Session_tryNextEvent, hs,
      BLPAPI_ERROR_INVALID_STATE]

/-- Witness for C2 (amended): on a concrete handler driven session,
nextEvent raises the InvalidState error. -/
theorem async_session_next_event_witness :
    Session.nextEvent { handle := 0, hasHandler := true } 0 0 0
        = Except.error (PyError.invalidState BLPAPI_ERROR_INVALID_STATE) :=
  (async_session_next_event_behaviour ⟨0, true⟩ rfl 0 0 0).1

/-- Counterexample to C2 as stated: on a handler driven session,
tryNextEvent does not fail with an InvalidState error; it returns the value
none (the source returns None on any nonzero code and never raises there). -/
theorem try_next_event_async_returns_none_counterexample :
    Session.tryNextEvent { handle := 0, hasHandler := true } 0 0
      = Except.ok none := by rfl

/-- C3: in createSnapshotRequestTemplate, when the value in the identity
slot is a CorrelationId the two trailing arguments are reinterpreted swapped
(the identity slot value becomes the correlation id passed down and the
correlationId slot value becomes the identity passed down); otherwise the
arguments are passed down as positioned. -/
theorem snapshot_template_argument_swap
    (s : SessionState) (subscriptionString : String)
    (correlationId identity : SnapshotArg) (rc : Int) (templateHandle : Nat) :
    (identity.isCorrelationId = true →
        (Session.createSnapshotRequestTemplate s subscriptionString
            correlationId identity rc templateHandle).1
          = { subscriptionString := subscriptionString,
              identityArg := correlationId, cidArg := identity })
    ∧ (identity.isCorrelationId = false →
        (Session.createSnapshotRequestTemplate s subscriptionString
            correlationId identity rc templateHandle).1
          = { subscriptionString := subscriptionString,
              identityArg := identity, cidArg := correlationId }) := by
  constructor <;> intro h <;>
    unfold Session.createSnapshotRequestTemplate <;>
    cases raiseOnError rc <;> simp [h]

/-- Witness for C3: with an Identity in the correlationId slot and a
CorrelationId in the identity slot (the old argument order), the call passed
down has the two values swapped back into place. -/
theorem snapshot_template_argument_swap_witness :
    (Session.createSnapshotRequestTemplate ⟨0, false⟩ "ticker"
        (SnapshotArg.ident ⟨7⟩) (SnapshotArg.cid ⟨1⟩) 0 5).1
      = { subscriptionString := "ticker",
          identityArg := SnapshotArg.ident ⟨7⟩,
          cidArg := SnapshotArg.cid ⟨1⟩ } :=
  (snapshot_template_argument_swap ⟨0, false⟩ "ticker"
    (SnapshotArg.ident ⟨7⟩) (SnapshotArg.cid ⟨1⟩) 0 5).1 rfl

/-- C4 (amended): a mode value that is neither a SubscriptionPreprocessMode
member nor the integer value of one makes subscribe and resubscribe raise
ValueError at the enum conversion; the InvalidArgumentException branch for
unsupported modes is therefore never reached. -/
theorem unsupported_mode_raises_value_error
    (s : SessionState) (entries : List SubscriptionEntry)
    (identity : Option Identity) (requestLabel : String)
    (resubscriptionId : Option Int) (mode : ModeArg) (transportRc : Int)
    (hmem : ∀ m, mode ≠ ModeArg.member m)
    (h1 : mode ≠ ModeArg.intValue 1) (h2 : mode ≠ ModeArg.intValue 2) :
    Session.subscribe s entries identity requestLabel mode transportRc
        = Except.error
            (PyError.valueError "is not a valid SubscriptionPreprocessMode")
    ∧ Session.resubscribe s entries requestLabel resubscriptionId mode
          transportRc
        = Except.error
            (PyError.valueError "is not a valid SubscriptionPreprocessMode") := by
  have hconv : SubscriptionPreprocessMode.ofArg mode
      = Except.error
          (PyError.valueError "is not a valid SubscriptionPreprocessMode") := by
    cases mode with
    | member m => exact absurd rfl (hmem m)
    | intValue v =>
        have hv1 : v ≠ 1 := fun h => h1 (by rw [h])
        have hv2 : v ≠ 2 := fun h => h2 (by rw [h])
        simp [SubscriptionPreprocessMode.ofArg, hv1, hv2]
    | other tag => rfl
  constructor
  · simp only [Session.subscribe, hconv]
    rfl
  · simp only [Session.resubscribe, hconv]
    rfl

/-- Witness for C4 (amended): a concrete unsupported mode value makes
resubscribe raise ValueError. -/
theorem unsupported_mode_raises_value_error_witness :
    Session.resubscribe ⟨0, false⟩ [] "" none (ModeArg.other "notAMode") 0
      = Except.error
          (PyError.valueError "is not a valid SubscriptionPreprocessMode") :=
  (unsupported_mode_raises_value_error ⟨0, false⟩ [] none "" none
    (ModeArg.other "notAMode") 0
    (fun _ h => ModeArg.noConfusion h)
    (fun h => ModeArg.noConfusion h)
    (fun h => ModeArg.noConfusion h)).2

/-- Counterexample to C4 as stated: with the unsupported mode value 3,
subscribe raises the built in ValueError from the enum conversion, not an
InvalidArgumentException (the unsupported mode branch of the source is
unreachable because the conversion raises first). -/
theorem unsupported_mode_counterexample :
    Session.subscribe ⟨0, false⟩ [] none "" (ModeArg.intValue 3) 0
      = Except.error
          (PyError.valueError "is not a valid SubscriptionPreprocessMode") := by
  rfl

/-- C5: for every sendRequest and sendRequestTemplate call, the correlation
id passed to the C layer is the caller supplied one when present and the
freshly minted one otherwise, and whenever the call does not raise, that
same id is the one returned. -/
theorem send_request_returns_cid_used
    (s : SessionState) (request : Nat) (identity : Option Identity)
    (correlationId : Option CorrelationId) (eventQueue : Option EventQueue)
    (requestLabel : String) (freshCid : CorrelationId)
    (resA resB : Int) (requestTemplate : RequestTemplate) :
    (Session.sendRequest s request identity correlationId eventQueue
        requestLabel freshCid resA).cidUsed = correlationId.getD freshCid
    ∧ (∀ c, (Session.sendRequest s request identity correlationId eventQueue
          requestLabel freshCid resA).result = Except.ok c →
        c = correlationId.getD freshCid)
    ∧ (Session.sendRequestTemplate s requestTemplate correlationId freshCid
        resB).1 = correlationId.getD freshCid
    ∧ (∀ c, (Session.sendRequestTemplate s requestTemplate correlationId
          freshCid resB).2 = Except.ok c → c = correlationId.getD freshCid) := by
  have hcid : (match correlationId with
      | none => freshCid
      | some c => c) = correlationId.getD freshCid := by
    cases correlationId <;> rfl
  refine ⟨?_, ?_, ?_, ?_⟩
  · unfold Session.sendRequest
    cases raiseOnError resA <;> simp [hcid]
  · intro c hc
    unfold Session.sendRequest at hc
    cases hra : raiseOnError resA <;> rw [hra] at hc <;> simp at hc
    rw [← hc, hcid]
  · unfold Session.sendRequestTemplate
    cases raiseOnError resB <;> simp [hcid]
  · intro c hc
    unfold Session.sendRequestTemplate at hc
    cases hrb : raiseOnError resB <;> rw [hrb] at hc <;> simp at hc
    rw [← hc, hcid]

/-- Witness for C5: with no caller supplied id and a successful submission,
the concrete fresh id is both used and returned. -/
theorem send_request_returns_cid_used_witness :
    (⟨11⟩ : CorrelationId) = (none : Option CorrelationId).getD ⟨11⟩ := by
  have h := send_request_returns_cid_used ⟨0, false⟩ 0 none none none ""
    ⟨11⟩ 0 0 ⟨0⟩
  exact h.2.1 ⟨11⟩ (by rfl)

/-- C6: when the session is still alive and the user handler raises, the
dispatcher prints the traceback to stderr and terminates the process with
exit status 1; the exception is neither propagated nor swallowed. -/
theorem dispatch_handler_exception_terminates
    (s : SessionState) (e : PyError) :
    Session.dispatchEvent (some s) (Except.error e)
      = DispatchResult.terminated true 1 := rfl

/-- C7: constructing a Session with a dispatcher but no handler raises
InvalidArgumentException and leaves the world untouched (no session handle
created, no exit hook registered); every other handler and dispatcher
combination passes the constructor validation. -/
theorem init_rejects_dispatcher_without_handler
    (eventHandler eventDispatcher : Option Nat) (w : World)
    (freshHandle : Nat) :
    (eventHandler = none ∧ eventDispatcher ≠ none →
        Session.init eventHandler eventDispatcher w freshHandle
          = (w, Except.error (PyError.invalidArgument
              "eventDispatcher is specified but eventHandler is None" 0)))
    ∧ (¬(eventHandler = none ∧ eventDispatcher ≠ none) →
        ∃ s, (Session.init eventHandler eventDispatcher w freshHandle).2
          = Except.ok s) := by
  constructor
  · intro h
    unfold Session.init
    rw [if_pos h]
  · intro h
    unfold Session.init
    rw [if_neg h]
    exact ⟨_, rfl⟩

/-- Witness for C7: the concrete rejected combination and a concrete
accepted one. -/
theorem init_rejects_dispatcher_without_handler_witness :
    Session.init none (some 3) ⟨[], []⟩ 0
        = (⟨[], []⟩, Except.error (PyError.invalidArgument
            "eventDispatcher is specified but eventHandler is None" 0))
    ∧ ∃ s, (Session.init (some 1) none ⟨[], []⟩ 0).2 = Except.ok s :=
  ⟨(init_rejects_dispatcher_without_handler none (some 3) ⟨[], []⟩ 0).1
      (by simp),
   (init_rejects_dispatcher_without_handler (some 1) none ⟨[], []⟩ 0).2
      (by simp)⟩

/-- C8: every successful construction registers the stop hook of the new
session in the atexit registry, and stop always removes that hook, so a
later process exit will not invoke stop on that session again. -/
theorem stop_unregisters_atexit_hook
    (eventHandler eventDispatcher : Option Nat) (w w2 : World)
    (freshHandle : Nat) (s s2 : SessionState) (stopRc : Int)
    (hinit : Session.init eventHandler eventDispatcher w freshHandle
        = (w2, Except.ok s2)) :
    AtexitHook.sessionStop s2.handle ∈ w2.atexitHooks
    ∧ AtexitHook.sessionStop s.handle
        ∉ ((Session.stop s w stopRc).2).atexitHooks := by
  constructor
  · unfold Session.init at hinit
    split at hinit
    · simp at hinit
    · rw [Prod.mk.injEq] at hinit
      obtain ⟨hw, hs⟩ := hinit
      rw [Except.ok.injEq] at hs
      rw [← hw, ← hs]
      simp [atexit_register]
  · simp [Session.stop, atexit_unregister, List.mem_filter]

/-- Witness for C8: a concrete construction registers the hook and a
concrete stop removes it. -/
theorem stop_unregisters_atexit_hook_witness :
    AtexitHook.sessionStop 42
        ∈ (World.mk [AtexitHook.sessionStop 42] [42]).atexitHooks
    ∧ AtexitHook.sessionStop 42
        ∉ ((Session.stop ⟨42, true⟩ ⟨[AtexitHook.sessionStop 42], [42]⟩
            0).2).atexitHooks :=
  stop_unregisters_atexit_hook (some 1) none ⟨[], []⟩
    ⟨[AtexitHook.sessionStop 42], [42]⟩ 42 ⟨42, true⟩ ⟨42, true⟩ 0 rfl

/-- C9: when the weak reference to the session yields none the dispatcher
completes without invoking the handler and without raising: the delivery is
dropped silently. -/
theorem dispatch_dead_session_drops_silently
    (handlerResult : Except PyError Unit) :
    Session.dispatchEvent none handlerResult
      = DispatchResult.completed false := rfl

/-- C10: when the submission code of sendRequest is nonzero, the call raises
the corresponding exception and the event queue is returned unchanged: no
session is registered with it. -/
theorem send_request_failure_leaves_queue_unchanged
    (s : SessionState) (request : Nat) (identity : Option Identity)
    (correlationId : Option CorrelationId) (eventQueue : Option EventQueue)
    (requestLabel : String) (freshCid : CorrelationId) (res : Int)
    (hres : res ≠ 0) :
    (Session.sendRequest s request identity correlationId eventQueue
        requestLabel freshCid res).result
        = Except.error (errorFromCode res)
    ∧ (Session.sendRequest s request identity correlationId eventQueue
        requestLabel freshCid res).queueAfter = eventQueue := by
  unfold Session.sendRequest raiseOnError
  rw [if_neg hres]
  exact ⟨rfl, rfl⟩

/-- Witness for C10: a concrete failed submission leaves the concrete queue
unchanged and raises. -/
theorem send_request_failure_leaves_queue_unchanged_witness :
    (Session.sendRequest ⟨0, false⟩ 0 none (some ⟨2⟩) (some ⟨[]⟩) "" ⟨1⟩
        7).result = Except.error (errorFromCode 7)
    ∧ (Session.sendRequest ⟨0, false⟩ 0 none (some ⟨2⟩) (some ⟨[]⟩) "" ⟨1⟩
        7).queueAfter = some ⟨[]⟩ :=
  send_request_failure_leaves_queue_unchanged ⟨0, false⟩ 0 none (some ⟨2⟩)
    (some ⟨[]⟩) "" ⟨1⟩ 7 (by decide)
